import Mathlib

/-!
Verification of the MATCH resource_adequacy_SOD module (slice-of-day RA).

The Pyomo model of src/match_model/optional/resource_adequacy_SOD.py is
shallowly embedded: parameter tables and index sets become a record of
functions and lists (SODParams), the four decision variables become a record
of rational-valued functions (SODAssignment), each Expression rule becomes a
Lean function, and each Constraint rule becomes a predicate on assignments.
Rationals stand in for the solver's reals; all constraint algebra is
field-independent.
-/

/-- Index sets and parameter tables of the model, as declared in
define_components: PERIODS, MONTHS, HOURS and GENERATION_PROJECTS are index
sets supplied by the enclosing model; the remaining fields are the Param
declarations and the generator attributes referenced by this module. -/
structure SODParams where
  PERIODS : List Nat
  MONTHS : List Nat
  HOURS : List Nat
  GENERATION_PROJECTS : List Nat
  gen_is_ra_eligible : Nat → Bool
  gen_is_variable : Nat → Bool
  gen_is_storage : Nat → Bool
  gen_tech_sod : Nat → String
  region_sod : Nat → String
  resource_id_sod : Nat → String
  GenCapacity : Nat → Nat → ℚ
  storage_energy_to_power_ratio : Nat → ℚ
  ra_sod_requirement : Nat → Nat → Nat → ℚ
  ra_sod_cost : Nat → Nat → ℚ
  ra_sod_resell_value : Nat → Nat → ℚ
  exceedance_vals : Nat → Nat → Nat → String → String → ℚ
  nqc_vals : Nat → Nat → String → ℚ
  storage_adders : Nat → Nat → ℚ
  sell_excess_RA : Bool

/-- Values of the four decision variables StorageDischarge, StorageCharge,
StorageState and NewRA, indexed as in the source. -/
structure SODAssignment where
  StorageDischarge : Nat → Nat → Nat → ℚ
  StorageCharge : Nat → Nat → Nat → ℚ
  StorageState : Nat → Nat → Nat → ℚ
  NewRA : Nat → Nat → ℚ

/-- CalculateHourlyQualifyingCapacities: the rule of the HourlyQC
Expression. generator_qc starts at 0 and is only overwritten when the
generator is RA eligible; eligible variable generation uses the exceedance
value times capacity, eligible Small Hydro uses the monthly nqc lookup, any
other eligible generator contributes its full period capacity. -/
def HourlyQC (m : SODParams) (g p mo h : Nat) : ℚ :=
  if m.gen_is_ra_eligible g then
    if m.gen_is_variable g then
      m.exceedance_vals p mo h (m.gen_tech_sod g) (m.region_sod g) * m.GenCapacity g p
    else if m.gen_tech_sod g = "Small Hydro" then
      m.nqc_vals p mo (m.resource_id_sod g)
    else
      m.GenCapacity g p
  else 0

/-- CalculateEnergyNQC: the rule of the EnergyNQC Expression. system_qc
starts at 0; the loop over GENERATION_PROJECTS leaves it unchanged for
storage projects and adds HourlyQC for every other project. -/
def EnergyNQC (m : SODParams) (p mo h : Nat) : ℚ :=
  m.GENERATION_PROJECTS.foldl
    (fun system_qc g =>
      if m.gen_is_storage g then system_qc else system_qc + HourlyQC m g p mo h)
    0

/-- CalculateStorageCapacity: the rule of the StorageQC Expression.
storage_cap accumulates GenCapacity over storage projects, and the
storage_adders parameter is added at the end. -/
def StorageQC (m : SODParams) (p mo : Nat) : ℚ :=
  m.GENERATION_PROJECTS.foldl
    (fun storage_cap g =>
      if m.gen_is_storage g then storage_cap + m.GenCapacity g p else storage_cap)
    0
  + m.storage_adders p mo

/-- CalculateStorageEnergy: the rule of the StorageEnergySOD Expression.
storage_energy accumulates GenCapacity times the energy-to-power ratio over
storage projects, and storage_adders times 4 is added at the end. -/
def StorageEnergySOD (m : SODParams) (p mo : Nat) : ℚ :=
  m.GENERATION_PROJECTS.foldl
    (fun storage_energy g =>
      if m.gen_is_storage g then
        storage_energy + m.GenCapacity g p * m.storage_energy_to_power_ratio g
      else storage_energy)
    0
  + m.storage_adders p mo * 4

/-- TotalMonthlyDischarge: sum of StorageDischarge over HOURS. -/
def TotalMonthlyDischarge (m : SODParams) (a : SODAssignment) (p mo : Nat) : ℚ :=
  (m.HOURS.map fun h => a.StorageDischarge p mo h).sum

/-- TotalMonthlyCharge: sum of StorageCharge over HOURS. -/
def TotalMonthlyCharge (m : SODParams) (a : SODAssignment) (p mo : Nat) : ℚ :=
  (m.HOURS.map fun h => a.StorageCharge p mo h).sum

/-- Variable domains as declared by the Var statements: StorageDischarge and
StorageCharge are NonNegativeReals, StorageState is Binary, and NewRA is
Reals when the sell_excess_RA option is "sell" and NonNegativeReals
otherwise. -/
def VarDomains (m : SODParams) (a : SODAssignment) : Prop :=
  (∀ p ∈ m.PERIODS, ∀ mo ∈ m.MONTHS, ∀ h ∈ m.HOURS, 0 ≤ a.StorageDischarge p mo h) ∧
  (∀ p ∈ m.PERIODS, ∀ mo ∈ m.MONTHS, ∀ h ∈ m.HOURS, 0 ≤ a.StorageCharge p mo h) ∧
  (∀ p ∈ m.PERIODS, ∀ mo ∈ m.MONTHS, ∀ h ∈ m.HOURS,
    a.StorageState p mo h = 0 ∨ a.StorageState p mo h = 1) ∧
  (if m.sell_excess_RA then True
   else ∀ p ∈ m.PERIODS, ∀ mo ∈ m.MONTHS, 0 ≤ a.NewRA p mo)

/-- RA_Position_Constraint rule: NewRA plus StorageDischarge plus EnergyNQC
is at least ra_sod_requirement plus StorageCharge. -/
def RA_Position_Constraint (m : SODParams) (a : SODAssignment) (p mo h : Nat) : Prop :=
  a.NewRA p mo + a.StorageDischarge p mo h + EnergyNQC m p mo h ≥
    m.ra_sod_requirement p mo h + a.StorageCharge p mo h

/-- Storage_Energy_Constraint rule: TotalMonthlyDischarge at most
StorageEnergySOD. -/
def Storage_Energy_Constraint (m : SODParams) (a : SODAssignment) (p mo : Nat) : Prop :=
  TotalMonthlyDischarge m a p mo ≤ StorageEnergySOD m p mo

/-- Storage_Charge_Discharge rule: TotalMonthlyDischarge equals
TotalMonthlyCharge times 0.8. -/
def Storage_Charge_Discharge (m : SODParams) (a : SODAssignment) (p mo : Nat) : Prop :=
  TotalMonthlyDischarge m a p mo = TotalMonthlyCharge m a p mo * 0.8

/-- Hourly_Discharge_Constriant rule (name kept from the source): hourly
StorageDischarge at most StorageQC. -/
def Hourly_Discharge_Constriant (m : SODParams) (a : SODAssignment) (p mo h : Nat) : Prop :=
  a.StorageDischarge p mo h ≤ StorageQC m p mo

/-- Hourly_Charge_Constriant rule (name kept from the source): hourly
StorageCharge at most StorageQC. -/
def Hourly_Charge_Constriant (m : SODParams) (a : SODAssignment) (p mo h : Nat) : Prop :=
  a.StorageCharge p mo h ≤ StorageQC m p mo

/-- Charging_State_Constraint rule, exactly as constructed: the product
StorageState times StorageCharge equals 0. -/
def Charging_State_Constraint (m : SODParams) (a : SODAssignment) (p mo h : Nat) : Prop :=
  a.StorageState p mo h * a.StorageCharge p mo h = 0

/-- Discharging_State_Constraint rule, exactly as constructed: the product
(1 - StorageState) times StorageDischarge equals 0. -/
def Discharging_State_Constraint (m : SODParams) (a : SODAssignment) (p mo h : Nat) : Prop :=
  (1 - a.StorageState p mo h) * a.StorageDischarge p mo h = 0

/-- An assignment satisfies the constructed model: the variable domains and
every constraint instance built by define_components over the index sets. -/
def Feasible (m : SODParams) (a : SODAssignment) : Prop :=
  VarDomains m a ∧
  (∀ p ∈ m.PERIODS, ∀ mo ∈ m.MONTHS, ∀ h ∈ m.HOURS, RA_Position_Constraint m a p mo h) ∧
  (∀ p ∈ m.PERIODS, ∀ mo ∈ m.MONTHS, Storage_Energy_Constraint m a p mo) ∧
  (∀ p ∈ m.PERIODS, ∀ mo ∈ m.MONTHS, Storage_Charge_Discharge m a p mo) ∧
  (∀ p ∈ m.PERIODS, ∀ mo ∈ m.MONTHS, ∀ h ∈ m.HOURS, Hourly_Discharge_Constriant m a p mo h) ∧
  (∀ p ∈ m.PERIODS, ∀ mo ∈ m.MONTHS, ∀ h ∈ m.HOURS, Hourly_Charge_Constriant m a p mo h) ∧
  (∀ p ∈ m.PERIODS, ∀ mo ∈ m.MONTHS, ∀ h ∈ m.HOURS, Charging_State_Constraint m a p mo h) ∧
  (∀ p ∈ m.PERIODS, ∀ mo ∈ m.MONTHS, ∀ h ∈ m.HOURS, Discharging_State_Constraint m a p mo h)

/-- MonthlyRAOpenPositionCost rule: NewRA times 1000 times ra_sod_cost. -/
def MonthlyRAOpenPositionCost (m : SODParams) (a : SODAssignment) (p mo : Nat) : ℚ :=
  a.NewRA p mo * 1000 * m.ra_sod_cost p mo

/-- RAOpenPositionCost rule: sum of MonthlyRAOpenPositionCost over MONTHS. -/
def RAOpenPositionCost (m : SODParams) (a : SODAssignment) (p : Nat) : ℚ :=
  (m.MONTHS.map fun mo => MonthlyRAOpenPositionCost m a p mo).sum

/-- The final statement of define_components: the name RAOpenPositionCost is
appended to the enclosing model's Cost_Components_Per_Period list. -/
def registerCostComponents (cost_components_per_period : List String) : List String :=
  cost_components_per_period ++ ["RAOpenPositionCost"]

/-- Modelled from the spec: the big-M charging inequality Charge at most
M times (1 - StorageState) with M = StorageQC, the linear reformulation the
spec says must be part of the constructed model. Written from the spec's
words, for comparison with Charging_State_Constraint. -/
def BigM_Charging_Constraint (m : SODParams) (a : SODAssignment) (p mo h : Nat) : Prop :=
  a.StorageCharge p mo h ≤ StorageQC m p mo * (1 - a.StorageState p mo h)

/-- Modelled from the spec: the big-M discharging inequality Discharge at
most M times StorageState with M = StorageQC. Written from the spec's words,
for comparison with Discharging_State_Constraint. -/
def BigM_Discharging_Constraint (m : SODParams) (a : SODAssignment) (p mo h : Nat) : Prop :=
  a.StorageDischarge p mo h ≤ StorageQC m p mo * a.StorageState p mo h

/-- The parameter table with one exceedance entry overwritten: used to state
what happens when a single exceedance value is increased, all other inputs
held fixed. -/
def updateExceedance (m : SODParams) (p mo h : Nat) (t r : String) (v : ℚ) : SODParams :=
  { m with
    exceedance_vals := fun p2 mo2 h2 t2 r2 =>
      if p2 = p ∧ mo2 = mo ∧ h2 = h ∧ t2 = t ∧ r2 = r then v
      else m.exceedance_vals p2 mo2 h2 t2 r2 }

/-! ## Helper lemmas: closed forms of the accumulation loops -/

/-- The EnergyNQC accumulation loop, for any starting value, equals the
start plus the sum of HourlyQC over the non-storage projects of the list. -/
theorem energyNQC_foldl_eq (m : SODParams) (p mo h : Nat) (l : List Nat) (init : ℚ) :
    l.foldl
      (fun system_qc g =>
        if m.gen_is_storage g then system_qc else system_qc + HourlyQC m g p mo h)
      init
      = init + ((l.filter fun g => ! m.gen_is_storage g).map fun g => HourlyQC m g p mo h).sum := by
  induction l generalizing init with
  | nil => simp
  | cons g l ih =>
    by_cases hg : m.gen_is_storage g
    · simp [hg, ih]
    · simp [hg, ih, add_assoc]

/-- EnergyNQC equals the sum of HourlyQC over non-storage projects. -/
theorem energyNQC_eq_sum (m : SODParams) (p mo h : Nat) :
    EnergyNQC m p mo h
      = ((m.GENERATION_PROJECTS.filter fun g => ! m.gen_is_storage g).map
          fun g => HourlyQC m g p mo h).sum := by
  simpa using energyNQC_foldl_eq m p mo h m.GENERATION_PROJECTS 0

/-- The StorageQC accumulation loop, for any starting value, equals the
start plus the sum of GenCapacity over the storage projects of the list. -/
theorem storageQC_foldl_eq (m : SODParams) (p : Nat) (l : List Nat) (init : ℚ) :
    l.foldl
      (fun storage_cap g =>
        if m.gen_is_storage g then storage_cap + m.GenCapacity g p else storage_cap)
      init
      = init + ((l.filter fun g => m.gen_is_storage g).map fun g => m.GenCapacity g p).sum := by
  induction l generalizing init with
  | nil => simp
  | cons g l ih =>
    by_cases hg : m.gen_is_storage g
    · simp [hg, ih, add_assoc]
    · simp [hg, ih]

/-- The StorageEnergySOD accumulation loop, for any starting value, equals
the start plus the sum of capacity times energy-to-power ratio over the
storage projects of the list. -/
theorem storageEnergy_foldl_eq (m : SODParams) (p : Nat) (l : List Nat) (init : ℚ) :
    l.foldl
      (fun storage_energy g =>
        if m.gen_is_storage g then
          storage_energy + m.GenCapacity g p * m.storage_energy_to_power_ratio g
        else storage_energy)
      init
      = init + ((l.filter fun g => m.gen_is_storage g).map
          fun g => m.GenCapacity g p * m.storage_energy_to_power_ratio g).sum := by
  induction l generalizing init with
  | nil => simp
  | cons g l ih =>
    by_cases hg : m.gen_is_storage g
    · simp [hg, ih, add_assoc]
    · simp [hg, ih]

/-! ## Concrete model instances used as witnesses and counterexamples -/

/-- A minimal instance: one period, one month, one hour, no generators, all
parameters zero, sell option disabled. -/
def zeroParams : SODParams where
  PERIODS := [0]
  MONTHS := [0]
  HOURS := [0]
  GENERATION_PROJECTS := []
  gen_is_ra_eligible := fun _ => false
  gen_is_variable := fun _ => false
  gen_is_storage := fun _ => false
  gen_tech_sod := fun _ => ""
  region_sod := fun _ => ""
  resource_id_sod := fun _ => ""
  GenCapacity := fun _ _ => 0
  storage_energy_to_power_ratio := fun _ => 0
  ra_sod_requirement := fun _ _ _ => 0
  ra_sod_cost := fun _ _ => 0
  ra_sod_resell_value := fun _ _ => 0
  exceedance_vals := fun _ _ _ _ _ => 0
  nqc_vals := fun _ _ _ => 0
  storage_adders := fun _ _ => 0
  sell_excess_RA := false

/-- The all-zero assignment. -/
def zeroAssignment : SODAssignment where
  StorageDischarge := fun _ _ _ => 0
  StorageCharge := fun _ _ _ => 0
  StorageState := fun _ _ _ => 0
  NewRA := fun _ _ => 0

/-- The all-zero assignment satisfies the constructed model on the minimal
instance. -/
theorem zeroFeasible : Feasible zeroParams zeroAssignment := by
  unfold Feasible VarDomains RA_Position_Constraint Storage_Energy_Constraint
    Storage_Charge_Discharge Hourly_Discharge_Constriant Hourly_Charge_Constriant
    Charging_State_Constraint Discharging_State_Constraint TotalMonthlyDischarge
    TotalMonthlyCharge EnergyNQC StorageQC StorageEnergySOD zeroParams zeroAssignment
  norm_num

/-! ## Claim theorems -/

/-- Claim C2: every assignment satisfying the constructed model satisfies,
for every (period, month, hour), NewRA + StorageDischarge + EnergyNQC at
least ra_sod_requirement + StorageCharge; and the RA_Position_Constraint is
exactly this inequality. -/
theorem C2_ra_position_invariant (m : SODParams) (a : SODAssignment) (hf : Feasible m a) :
    (∀ p ∈ m.PERIODS, ∀ mo ∈ m.MONTHS, ∀ h ∈ m.HOURS,
      a.NewRA p mo + a.StorageDischarge p mo h + EnergyNQC m p mo h ≥
        m.ra_sod_requirement p mo h + a.StorageCharge p mo h) ∧
    (∀ p mo h : Nat, RA_Position_Constraint m a p mo h ↔
      a.NewRA p mo + a.StorageDischarge p mo h + EnergyNQC m p mo h ≥
        m.ra_sod_requirement p mo h + a.StorageCharge p mo h) :=
  ⟨fun p hp mo hmo h hh => hf.2.1 p hp mo hmo h hh, fun _ _ _ => Iff.rfl⟩

/-- Witness for C2 on the minimal feasible instance. -/
theorem C2_ra_position_invariant_witness :
    zeroAssignment.NewRA 0 0 + zeroAssignment.StorageDischarge 0 0 0 +
        EnergyNQC zeroParams 0 0 0 ≥
      zeroParams.ra_sod_requirement 0 0 0 + zeroAssignment.StorageCharge 0 0 0 :=
  (C2_ra_position_invariant zeroParams zeroAssignment zeroFeasible).1
    0 (by simp [zeroParams]) 0 (by simp [zeroParams]) 0 (by simp [zeroParams])

/-- Claim C3: HourlyQC follows the stated priority order: 0 when not RA
eligible; exceedance value times capacity when variable; the monthly nqc
lookup (hour independent) when Small Hydro; otherwise full period
capacity. -/
theorem C3_hourlyQC_priority (m : SODParams) (g p mo h : Nat) :
    (m.gen_is_ra_eligible g = false → HourlyQC m g p mo h = 0) ∧
    (m.gen_is_ra_eligible g = true → m.gen_is_variable g = true →
      HourlyQC m g p mo h =
        m.exceedance_vals p mo h (m.gen_tech_sod g) (m.region_sod g) * m.GenCapacity g p) ∧
    (m.gen_is_ra_eligible g = true → m.gen_is_variable g = false →
      m.gen_tech_sod g = "Small Hydro" →
      HourlyQC m g p mo h = m.nqc_vals p mo (m.resource_id_sod g)) ∧
    (m.gen_is_ra_eligible g = true → m.gen_is_variable g = false →
      m.gen_tech_sod g ≠ "Small Hydro" →
      HourlyQC m g p mo h = m.GenCapacity g p) := by
  unfold HourlyQC
  exact ⟨fun he => by simp [he], fun he hv => by simp [he, hv],
    fun he hv hsh => by simp [he, hv, hsh], fun he hv hsh => by simp [he, hv, hsh]⟩

/-- Instance for the C3 witness: generator 0 is ineligible, generator 1 is
eligible variable generation, generator 2 is eligible Small Hydro,
generator 3 is eligible geothermal. -/
def mC3 : SODParams :=
  { zeroParams with
    GENERATION_PROJECTS := [0, 1, 2, 3]
    gen_is_ra_eligible := fun g => g != 0
    gen_is_variable := fun g => g == 1
    gen_tech_sod := fun g =>
      if g = 2 then "Small Hydro" else if g = 1 then "Solar" else "Geothermal"
    region_sod := fun _ => "North"
    GenCapacity := fun g _ => if g = 1 then 5 else if g = 3 then 9 else 3
    exceedance_vals := fun _ _ _ _ _ => 2
    nqc_vals := fun _ _ _ => 7 }

/-- Witness for C3: all four branches evaluated on the concrete instance. -/
theorem C3_hourlyQC_priority_witness :
    HourlyQC mC3 0 0 0 0 = 0 ∧
    HourlyQC mC3 1 0 0 0 =
      mC3.exceedance_vals 0 0 0 (mC3.gen_tech_sod 1) (mC3.region_sod 1) * mC3.GenCapacity 1 0 ∧
    HourlyQC mC3 2 0 0 0 = mC3.nqc_vals 0 0 (mC3.resource_id_sod 2) ∧
    HourlyQC mC3 3 0 0 0 = mC3.GenCapacity 3 0 :=
  ⟨(C3_hourlyQC_priority mC3 0 0 0 0).1 (by simp [mC3]),
   (C3_hourlyQC_priority mC3 1 0 0 0).2.1 (by simp [mC3]) (by simp [mC3]),
   (C3_hourlyQC_priority mC3 2 0 0 0).2.2.1 (by simp [mC3]) (by simp [mC3]) (by simp [mC3]),
   (C3_hourlyQC_priority mC3 3 0 0 0).2.2.2 (by simp [mC3]) (by simp [mC3]) (by simp [mC3])⟩

/-- Claim C4: EnergyNQC equals the sum of HourlyQC over exactly the
generators whose storage flag is false. -/
theorem C4_energyNQC_nonstorage_sum (m : SODParams) (p mo h : Nat) :
    EnergyNQC m p mo h
      = ((m.GENERATION_PROJECTS.filter fun g => ! m.gen_is_storage g).map
          fun g => HourlyQC m g p mo h).sum :=
  energyNQC_eq_sum m p mo h

/-- Claim C5: StorageQC is the sum of storage generator capacities plus the
storage adder, and StorageEnergySOD is the sum of capacity times
energy-to-power ratio over storage generators plus 4 times the adder. -/
theorem C5_storage_aggregation (m : SODParams) (p mo : Nat) :
    StorageQC m p mo =
      ((m.GENERATION_PROJECTS.filter fun g => m.gen_is_storage g).map
        fun g => m.GenCapacity g p).sum + m.storage_adders p mo ∧
    StorageEnergySOD m p mo =
      ((m.GENERATION_PROJECTS.filter fun g => m.gen_is_storage g).map
        fun g => m.GenCapacity g p * m.storage_energy_to_power_ratio g).sum
        + 4 * m.storage_adders p mo := by
  constructor
  · unfold StorageQC
    rw [storageQC_foldl_eq]
    ring
  · unfold StorageEnergySOD
    rw [storageEnergy_foldl_eq]
    ring

/-- Claim C6: in every assignment satisfying the constructed model, the
monthly aggregate of StorageDischarge equals 0.8 times the monthly
aggregate of StorageCharge, for every (period, month). -/
theorem C6_monthly_efficiency (m : SODParams) (a : SODAssignment) (hf : Feasible m a) :
    ∀ p ∈ m.PERIODS, ∀ mo ∈ m.MONTHS,
      (m.HOURS.map fun h => a.StorageDischarge p mo h).sum =
        0.8 * (m.HOURS.map fun h => a.StorageCharge p mo h).sum := by
  intro p hp mo hmo
  have hc := hf.2.2.2.1 p hp mo hmo
  unfold Storage_Charge_Discharge TotalMonthlyDischarge TotalMonthlyCharge at hc
  rw [hc, mul_comm]

/-- Witness for C6 on the minimal feasible instance. -/
theorem C6_monthly_efficiency_witness :
    (zeroParams.HOURS.map fun h => zeroAssignment.StorageDischarge 0 0 h).sum =
      0.8 * (zeroParams.HOURS.map fun h => zeroAssignment.StorageCharge 0 0 h).sum :=
  C6_monthly_efficiency zeroParams zeroAssignment zeroFeasible
    0 (by simp [zeroParams]) 0 (by simp [zeroParams])

/-- Claim C7: in every assignment satisfying the constructed model (binary
StorageState, non-negative charge and discharge), no hour has both a
positive StorageCharge and a positive StorageDischarge. -/
theorem C7_mutual_exclusivity (m : SODParams) (a : SODAssignment) (hf : Feasible m a) :
    ∀ p ∈ m.PERIODS, ∀ mo ∈ m.MONTHS, ∀ h ∈ m.HOURS,
      ¬ (0 < a.StorageCharge p mo h ∧ 0 < a.StorageDischarge p mo h) := by
  intro p hp mo hmo h hh hboth
  obtain ⟨hc, hd⟩ := hboth
  have hbin := hf.1.2.2.1 p hp mo hmo h hh
  have hcs := hf.2.2.2.2.2.2.1 p hp mo hmo h hh
  have hds := hf.2.2.2.2.2.2.2 p hp mo hmo h hh
  unfold Charging_State_Constraint at hcs
  unfold Discharging_State_Constraint at hds
  rcases hbin with h0 | h1
  · rw [h0] at hds
    norm_num at hds
    exact hd.ne' hds
  · rw [h1] at hcs
    norm_num at hcs
    exact hc.ne' hcs

/-- Witness for C7 on the minimal feasible instance. -/
theorem C7_mutual_exclusivity_witness :
    ¬ (0 < zeroAssignment.StorageCharge 0 0 0 ∧ 0 < zeroAssignment.StorageDischarge 0 0 0) :=
  C7_mutual_exclusivity zeroParams zeroAssignment zeroFeasible
    0 (by simp [zeroParams]) 0 (by simp [zeroParams]) 0 (by simp [zeroParams])

/-- Claim C8: MonthlyRAOpenPositionCost is NewRA times 1000 times
ra_sod_cost; RAOpenPositionCost is the sum of the monthly costs over
MONTHS; and the name RAOpenPositionCost is registered in the enclosing
model's cost component list. -/
theorem C8_cost_rollup (m : SODParams) (a : SODAssignment) (p mo : Nat) :
    MonthlyRAOpenPositionCost m a p mo = a.NewRA p mo * 1000 * m.ra_sod_cost p mo ∧
    RAOpenPositionCost m a p =
      (m.MONTHS.map fun mo2 => MonthlyRAOpenPositionCost m a p mo2).sum ∧
    ∀ cost_components : List String,
      "RAOpenPositionCost" ∈ registerCostComponents cost_components :=
  ⟨rfl, rfl, fun cost_components => by simp [registerCostComponents]⟩

/-- Claim C10: no constructed expression or constraint reads
ra_sod_resell_value: replacing that parameter table leaves every expression
and the whole feasible set unchanged. -/
theorem C10_resell_value_noninterference (m : SODParams) (a : SODAssignment)
    (v : Nat → Nat → ℚ) (g p mo h : Nat) :
    HourlyQC { m with ra_sod_resell_value := v } g p mo h = HourlyQC m g p mo h ∧
    EnergyNQC { m with ra_sod_resell_value := v } p mo h = EnergyNQC m p mo h ∧
    StorageQC { m with ra_sod_resell_value := v } p mo = StorageQC m p mo ∧
    StorageEnergySOD { m with ra_sod_resell_value := v } p mo = StorageEnergySOD m p mo ∧
    (RA_Position_Constraint { m with ra_sod_resell_value := v } a p mo h ↔
      RA_Position_Constraint m a p mo h) ∧
    MonthlyRAOpenPositionCost { m with ra_sod_resell_value := v } a p mo =
      MonthlyRAOpenPositionCost m a p mo ∧
    RAOpenPositionCost { m with ra_sod_resell_value := v } a p = RAOpenPositionCost m a p ∧
    (Feasible { m with ra_sod_resell_value := v } a ↔ Feasible m a) :=
  ⟨rfl, rfl, rfl, rfl, Iff.rfl, rfl, rfl, Iff.rfl⟩

/-! ## Claim C1: form of the mutual-exclusivity constraints -/

/-- Instance for the C1 counterexample: one storage generator of 10 MW, so
StorageQC is 10 in every period and month. -/
def mBigM : SODParams :=
  { zeroParams with
    GENERATION_PROJECTS := [0]
    gen_is_storage := fun _ => true
    GenCapacity := fun _ _ => 10 }

/-- Assignment charging 20 MW in state 0. -/
def aOverCharge : SODAssignment :=
  { zeroAssignment with StorageCharge := fun _ _ _ => 20 }

/-- Assignment discharging 20 MW in state 1. -/
def aOverDischarge : SODAssignment :=
  { zeroAssignment with
    StorageDischarge := fun _ _ _ => 20
    StorageState := fun _ _ _ => 1 }

/-- Claim C1 counterexample: the constraints the model constructs are not
the big-M inequalities. Even at binary StorageState values the relations
differ: with StorageQC 10, an assignment charging 20 in state 0 satisfies
the constructed Charging_State_Constraint but violates the spec's big-M
charging inequality, and an assignment discharging 20 in state 1 satisfies
the constructed Discharging_State_Constraint but violates the spec's big-M
discharging inequality. -/
theorem C1_counterexample :
    (aOverCharge.StorageState 0 0 0 = 0 ∧
      Charging_State_Constraint mBigM aOverCharge 0 0 0 ∧
      ¬ BigM_Charging_Constraint mBigM aOverCharge 0 0 0) ∧
    (aOverDischarge.StorageState 0 0 0 = 1 ∧
      Discharging_State_Constraint mBigM aOverDischarge 0 0 0 ∧
      ¬ BigM_Discharging_Constraint mBigM aOverDischarge 0 0 0) := by
  unfold Charging_State_Constraint BigM_Charging_Constraint Discharging_State_Constraint
    BigM_Discharging_Constraint StorageQC mBigM aOverCharge aOverDischarge zeroParams
    zeroAssignment
  norm_num

/-- Claim C1 as amended: the mutual-exclusivity constraints handed to the
solver are the bilinear products themselves: every assignment satisfying
the constructed model satisfies StorageState times StorageCharge equal 0
and (1 - StorageState) times StorageDischarge equal 0 at every index; no
big-M reformulation is part of the constructed model. -/
theorem C1_bilinear_exclusivity (m : SODParams) (a : SODAssignment) (hf : Feasible m a) :
    ∀ p ∈ m.PERIODS, ∀ mo ∈ m.MONTHS, ∀ h ∈ m.HOURS,
      a.StorageState p mo h * a.StorageCharge p mo h = 0 ∧
      (1 - a.StorageState p mo h) * a.StorageDischarge p mo h = 0 :=
  fun p hp mo hmo h hh =>
    ⟨hf.2.2.2.2.2.2.1 p hp mo hmo h hh, hf.2.2.2.2.2.2.2 p hp mo hmo h hh⟩

/-- Witness for the amended C1 on the minimal feasible instance. -/
theorem C1_bilinear_exclusivity_witness :
    zeroAssignment.StorageState 0 0 0 * zeroAssignment.StorageCharge 0 0 0 = 0 ∧
    (1 - zeroAssignment.StorageState 0 0 0) * zeroAssignment.StorageDischarge 0 0 0 = 0 :=
  C1_bilinear_exclusivity zeroParams zeroAssignment zeroFeasible
    0 (by simp [zeroParams]) 0 (by simp [zeroParams]) 0 (by simp [zeroParams])

/-! ## Claim C9: monotonicity of EnergyNQC in an exceedance value -/

/-- Projection facts for updateExceedance: every field other than
exceedance_vals is unchanged. -/
theorem updateExceedance_proj (m : SODParams) (p mo h : Nat) (t r : String) (v : ℚ) :
    (updateExceedance m p mo h t r v).GENERATION_PROJECTS = m.GENERATION_PROJECTS ∧
    (updateExceedance m p mo h t r v).gen_is_storage = m.gen_is_storage ∧
    (updateExceedance m p mo h t r v).gen_is_ra_eligible = m.gen_is_ra_eligible ∧
    (updateExceedance m p mo h t r v).gen_is_variable = m.gen_is_variable ∧
    (updateExceedance m p mo h t r v).gen_tech_sod = m.gen_tech_sod ∧
    (updateExceedance m p mo h t r v).region_sod = m.region_sod ∧
    (updateExceedance m p mo h t r v).resource_id_sod = m.resource_id_sod ∧
    (updateExceedance m p mo h t r v).GenCapacity = m.GenCapacity ∧
    (updateExceedance m p mo h t r v).nqc_vals = m.nqc_vals :=
  ⟨rfl, rfl, rfl, rfl, rfl, rfl, rfl, rfl, rfl⟩

/-- The overwritten exceedance table at an arbitrary key. -/
theorem updateExceedance_vals (m : SODParams) (p mo h : Nat) (t r : String) (v : ℚ)
    (p2 mo2 h2 : Nat) (t2 r2 : String) :
    (updateExceedance m p mo h t r v).exceedance_vals p2 mo2 h2 t2 r2 =
      if p2 = p ∧ mo2 = mo ∧ h2 = h ∧ t2 = t ∧ r2 = r then v
      else m.exceedance_vals p2 mo2 h2 t2 r2 :=
  rfl

/-- Raising one exceedance entry never lowers any generator's HourlyQC at
the affected (period, month, hour), provided its capacity is
non-negative. -/
theorem hourlyQC_updateExceedance_mono (m : SODParams) (p mo h : Nat) (t r : String)
    (v : ℚ) (g2 : Nat)
    (hle : m.exceedance_vals p mo h t r ≤ v)
    (hcap2 : 0 ≤ m.GenCapacity g2 p) :
    HourlyQC m g2 p mo h ≤ HourlyQC (updateExceedance m p mo h t r v) g2 p mo h := by
  have hproj := updateExceedance_proj m p mo h t r v
  unfold HourlyQC
  rw [hproj.2.2.1, hproj.2.2.2.1, hproj.2.2.2.2.1, hproj.2.2.2.2.2.1,
    hproj.2.2.2.2.2.2.1, hproj.2.2.2.2.2.2.2.1, hproj.2.2.2.2.2.2.2.2,
    updateExceedance_vals]
  by_cases helig : m.gen_is_ra_eligible g2 = true
  · rw [if_pos helig, if_pos helig]
    by_cases hvar : m.gen_is_variable g2 = true
    · rw [if_pos hvar, if_pos hvar]
      by_cases hkey : p = p ∧ mo = mo ∧ h = h ∧ m.gen_tech_sod g2 = t ∧ m.region_sod g2 = r
      · rw [if_pos hkey, hkey.2.2.2.1, hkey.2.2.2.2]
        exact mul_le_mul_of_nonneg_right hle hcap2
      · rw [if_neg hkey]
    · rw [if_neg hvar, if_neg hvar]
  · rw [if_neg helig, if_neg helig]

/-- Raising the exceedance entry at the key of an RA-eligible variable
generator with positive capacity strictly raises that generator's HourlyQC
at the affected (period, month, hour). -/
theorem hourlyQC_updateExceedance_strict (m : SODParams) (g p mo h : Nat) (v : ℚ)
    (helig : m.gen_is_ra_eligible g = true)
    (hvar : m.gen_is_variable g = true)
    (hcap : 0 < m.GenCapacity g p)
    (hv : m.exceedance_vals p mo h (m.gen_tech_sod g) (m.region_sod g) < v) :
    HourlyQC m g p mo h <
      HourlyQC (updateExceedance m p mo h (m.gen_tech_sod g) (m.region_sod g) v) g p mo h := by
  have hproj := updateExceedance_proj m p mo h (m.gen_tech_sod g) (m.region_sod g) v
  unfold HourlyQC
  rw [hproj.2.2.1, hproj.2.2.2.1, hproj.2.2.2.2.1, hproj.2.2.2.2.2.1,
    hproj.2.2.2.2.2.2.1, hproj.2.2.2.2.2.2.2.1, hproj.2.2.2.2.2.2.2.2,
    updateExceedance_vals]
  rw [if_pos helig, if_pos helig, if_pos hvar, if_pos hvar,
    if_pos ⟨rfl, rfl, rfl, rfl, rfl⟩]
  exact mul_lt_mul_of_pos_right hv hcap

/-- Claim C9 as amended: for an RA-eligible, variable, non-storage
generator with positive capacity, and all capacities non-negative,
increasing the exceedance entry at that generator's (period, month, hour,
technology, region) key strictly increases EnergyNQC at that hour, all
other inputs held fixed. -/
theorem C9_exceedance_monotonic (m : SODParams) (g p mo h : Nat) (v : ℚ)
    (hg : g ∈ m.GENERATION_PROJECTS)
    (helig : m.gen_is_ra_eligible g = true)
    (hvar : m.gen_is_variable g = true)
    (hstor : m.gen_is_storage g = false)
    (hcap : 0 < m.GenCapacity g p)
    (hcaps : ∀ g2 ∈ m.GENERATION_PROJECTS, 0 ≤ m.GenCapacity g2 p)
    (hv : m.exceedance_vals p mo h (m.gen_tech_sod g) (m.region_sod g) < v) :
    EnergyNQC m p mo h <
      EnergyNQC (updateExceedance m p mo h (m.gen_tech_sod g) (m.region_sod g) v) p mo h := by
  have hproj := updateExceedance_proj m p mo h (m.gen_tech_sod g) (m.region_sod g) v
  rw [energyNQC_eq_sum, energyNQC_eq_sum, hproj.1, hproj.2.1]
  refine List.sum_lt_sum _ _ ?_ ?_
  · intro g2 hg2
    exact hourlyQC_updateExceedance_mono m p mo h (m.gen_tech_sod g) (m.region_sod g) v g2
      (le_of_lt hv) (hcaps g2 (List.mem_filter.mp hg2).1)
  · exact ⟨g, List.mem_filter.mpr ⟨hg, by simp [hstor]⟩,
      hourlyQC_updateExceedance_strict m g p mo h v helig hvar hcap hv⟩

/-- Instance for the C9 witness: one eligible variable solar generator of
capacity 5 with exceedance value 1. -/
def mMono : SODParams :=
  { zeroParams with
    GENERATION_PROJECTS := [0]
    gen_is_ra_eligible := fun _ => true
    gen_is_variable := fun _ => true
    gen_tech_sod := fun _ => "Solar"
    region_sod := fun _ => "North"
    GenCapacity := fun _ _ => 5
    exceedance_vals := fun _ _ _ _ _ => 1 }

/-- Witness for the amended C9: raising the exceedance entry from 1 to 2
strictly raises EnergyNQC on the concrete instance. -/
theorem C9_exceedance_monotonic_witness :
    EnergyNQC mMono 0 0 0 <
      EnergyNQC (updateExceedance mMono 0 0 0 (mMono.gen_tech_sod 0) (mMono.region_sod 0) 2)
        0 0 0 :=
  C9_exceedance_monotonic mMono 0 0 0 0 2 (by simp [mMono]) (by simp [mMono])
    (by simp [mMono]) (by simp [mMono, zeroParams]) (by norm_num [mMono])
    (by intro g2 hg2; norm_num [mMono]) (by norm_num [mMono])

/-- Instance for the C9 counterexample: the same single variable solar
generator, capacity 5 and exceedance 1, but not RA eligible. -/
def mIneligible : SODParams :=
  { zeroParams with
    GENERATION_PROJECTS := [0]
    gen_is_ra_eligible := fun _ => false
    gen_is_variable := fun _ => true
    gen_tech_sod := fun _ => "Solar"
    region_sod := fun _ => "North"
    GenCapacity := fun _ _ => 5
    exceedance_vals := fun _ _ _ _ _ => 1 }

/-- Claim C9 counterexample: for a variable generator that is not RA
eligible, raising its exceedance entry from 1 to 2 leaves EnergyNQC
unchanged, so the unconditional strict-increase claim fails. -/
theorem C9_counterexample :
    mIneligible.gen_is_variable 0 = true ∧
    0 ∈ mIneligible.GENERATION_PROJECTS ∧
    mIneligible.GenCapacity 0 0 = 5 ∧
    mIneligible.exceedance_vals 0 0 0 (mIneligible.gen_tech_sod 0) (mIneligible.region_sod 0)
      = 1 ∧
    (1 : ℚ) < 2 ∧
    EnergyNQC
        (updateExceedance mIneligible 0 0 0 (mIneligible.gen_tech_sod 0)
          (mIneligible.region_sod 0) 2) 0 0 0
      = EnergyNQC mIneligible 0 0 0 := by
  refine ⟨rfl, by simp [mIneligible], rfl, rfl, by norm_num, ?_⟩
  norm_num [EnergyNQC, HourlyQC, updateExceedance, mIneligible, zeroParams]
